import Mathlib

/-!
Shallow embedding of the sparse-set entity-component store in `src/main.rs`
(`Pool<T>` and `EntityStore`), together with theorems settling the claims
about it.

Conventions of the embedding:
* Rust `usize` entity ids become `Nat`.
* `Vec<X>` becomes `List X`; `Vec::get` is `List.get?`.
* Operations that can hit a Rust panic (raw indexing, `Vec::swap_remove`
  out of range) return `Except Unit _`, with `.error ()` standing for the
  panic and `.ok` for normal return.
* The type-indexed `AnyMap` of the store becomes an association list keyed
  by a `Nat` type tag; all pools share one Lean value type `T`, and distinct
  Rust component types are distinct tags.
-/

/-- Rust `type EntityId = usize`. -/
abbrev EntityId := Nat

/-- `Pool<T>`: sparse index layer plus the two packed dense layers. -/
structure Pool (T : Type) where
  entity_indices : List (Option EntityId)
  entity_list : List EntityId
  component_list : List T
deriving Repr

/-- `Vec::swap_remove(i)` for `i < l.length`: overwrite slot `i` with the
last element and drop the last slot. (Rust panics when `i` is out of range;
callers of this helper check the bound themselves.) -/
def listSwapRemove {α : Type} (l : List α) (i : Nat) : List α :=
  match l.getLast? with
  | none => l
  | some last => (l.set i last).dropLast

/-- `Pool::new()`. -/
def Pool.new (T : Type) : Pool T := ⟨[], [], []⟩

/-- `Pool::new_entity()`: push one empty sparse slot, return `len - 1`. -/
def Pool.new_entity {T : Type} (p : Pool T) : Pool T × EntityId :=
  let indices := p.entity_indices ++ [none]
  (⟨indices, p.entity_list, p.component_list⟩, indices.length - 1)

/-- `Pool::reserve_up_to(entityId)`: `resize(entityId + 1, None)` unless the
sparse layer is already long enough. -/
def Pool.reserve_up_to {T : Type} (p : Pool T) (entityId : EntityId) : Pool T :=
  if entityId < p.entity_indices.length then p
  else
    ⟨p.entity_indices ++ List.replicate (entityId + 1 - p.entity_indices.length) none,
     p.entity_list, p.component_list⟩

/-- `Pool::add_component(entityId, component)`. The overwrite branch indexes
`entity_list[index]` and `component_list[index]` raw, so a stale sparse entry
pointing past the dense layers is a panic (`.error ()`); the out-of-range
read of `entity_indices[entityId]` cannot happen after `reserve_up_to` but is
also mapped to `.error ()` for faithfulness. -/
def Pool.add_component {T : Type} (p : Pool T) (entityId : EntityId) (component : T) :
    Except Unit (Pool T) :=
  let q := if p.entity_indices.length ≤ entityId then p.reserve_up_to entityId else p
  match q.entity_indices.get? entityId with
  | none => .error ()
  | some (some index) =>
    if index < q.entity_list.length && index < q.component_list.length then
      .ok ⟨q.entity_indices, q.entity_list.set index entityId,
           q.component_list.set index component⟩
    else .error ()
  | some none =>
    .ok ⟨q.entity_indices.set entityId (some q.entity_list.length),
         q.entity_list ++ [entityId], q.component_list ++ [component]⟩

/-- `<Pool<T> as PoolRemoval>::remove(entity_id)`. Mirrors the source exactly:
after clearing `entity_indices[entity_id]`, the value that `swap_remove`
RETURNS (the removed element, i.e. `entity_id` itself whenever invariant 3
held) is used both as the index into `entity_indices` and as the new dense
position written there. -/
def Pool.remove {T : Type} (p : Pool T) (entity_id : EntityId) : Except Unit (Pool T) :=
  match p.entity_indices.get? entity_id with
  | none => .ok p
  | some none => .ok p
  | some (some entity_index_copy) =>
    let indices := p.entity_indices.set entity_id none
    if entity_index_copy < p.entity_list.length then
      match p.entity_list.get? entity_index_copy with
      | none => .error ()
      | some new_entity_id =>
        if entity_index_copy < p.component_list.length then
          .ok ⟨indices.set new_entity_id (some new_entity_id),
               listSwapRemove p.entity_list entity_index_copy,
               listSwapRemove p.component_list entity_index_copy⟩
        else .error ()
    else .error ()

/-- `Pool::len()`. -/
def Pool.len {T : Type} (p : Pool T) : Nat := p.entity_list.length

/-- `Pool::components()`: the dense layers zipped into pairs. -/
def Pool.components {T : Type} (p : Pool T) : List (EntityId × T) :=
  p.entity_list.zip p.component_list

/-- `Pool::get(entity_id)`: the two `?`s give `.ok none`; the raw index
`component_list[i]` panics (`.error ()`) when the dense position is stale. -/
def Pool.get {T : Type} (p : Pool T) (entity_id : EntityId) : Except Unit (Option T) :=
  match p.entity_indices.get? entity_id with
  | none => .ok none
  | some none => .ok none
  | some (some i) =>
    match p.component_list.get? i with
    | some v => .ok (some v)
    | none => .error ()

/-- `Pool::get_mut(entity_id)`: same read semantics as `get`. -/
def Pool.get_mut {T : Type} (p : Pool T) (entity_id : EntityId) : Except Unit (Option T) :=
  Pool.get p entity_id

/-- `Pool::has_component(entityId)` as written in the source:
`self.entity_indices.get(entityId).is_none()`. -/
def Pool.has_component {T : Type} (p : Pool T) (entityId : EntityId) : Bool :=
  (p.entity_indices.get? entityId).isNone

/-- Invariant 1 of the data model: the two dense layers have equal length. -/
def Pool.invariant1 {T : Type} (p : Pool T) : Bool :=
  p.entity_list.length == p.component_list.length

/-- Invariant 2: `sparse[dense_handles[i]] == Some(i)` for every dense `i`. -/
def Pool.invariant2 {T : Type} (p : Pool T) : Bool :=
  (List.range p.entity_list.length).all fun i =>
    match p.entity_list.get? i with
    | some h => p.entity_indices.get? h == some (some i)
    | none => true

/-- Invariant 3: `dense_handles[i] == h` for every `h` with
`sparse[h] == Some(i)`. -/
def Pool.invariant3 {T : Type} (p : Pool T) : Bool :=
  (List.range p.entity_indices.length).all fun h =>
    match p.entity_indices.get? h with
    | some (some i) => p.entity_list.get? i == some h
    | _ => true

/-- Invariant 4 as a state predicate: every dense handle lies inside the
sparse layer, so handles beyond the sparse length are implicitly absent. -/
def Pool.invariant4 {T : Type} (p : Pool T) : Bool :=
  p.entity_list.all fun e => decide (e < p.entity_indices.length)

/-- All four invariants of the data model at once. -/
def Pool.invariants {T : Type} (p : Pool T) : Bool :=
  p.invariant1 && p.invariant2 && p.invariant3 && p.invariant4

/-- The `AnyMap` field of `EntityStore`, as an association list from a type
tag to the pool stored for that component type. -/
abbrev StoreMap (T : Type) := List (Nat × Pool T)

/-- `AnyMap::get::<Pool<T>>()`: the pool registered under `tag`, if any. -/
def storeGet {T : Type} (store : StoreMap T) (tag : Nat) : Option (Pool T) :=
  (store.find? fun kv => kv.1 == tag).map Prod.snd

/-- `AnyMap::insert(pool)`: replace the entry for `tag` or append a new one. -/
def storeInsert {T : Type} (store : StoreMap T) (tag : Nat) (p : Pool T) : StoreMap T :=
  if store.any (fun kv => kv.1 == tag) then
    store.map fun kv => if kv.1 == tag then (tag, p) else kv
  else store ++ [(tag, p)]

/-- Writing back through `AnyMap::get_mut::<Pool<T>>()`: update the entry for
`tag` in place. -/
def storeUpdate {T : Type} (store : StoreMap T) (tag : Nat) (p : Pool T) : StoreMap T :=
  store.map fun kv => if kv.1 == tag then (tag, p) else kv

/-- `EntityStore`: the typed pool map, the high-water mark, and the
type-erased broadcast list `pool_refs` (modelled by the tags it would hold;
the source never pushes to it, so it stays empty in every reachable state). -/
structure EntityStore (T : Type) where
  store : StoreMap T
  max_entity : EntityId
  pool_refs : List Nat
deriving Repr

/-- `EntityStore::new()`. -/
def EntityStore.new (T : Type) : EntityStore T := ⟨[], 0, []⟩

/-- `EntityStore::new_component::<T>()`: build a fresh pool, reserve it up to
`max_entity`, insert it into the map. The source does NOT touch `pool_refs`. -/
def EntityStore.new_component {T : Type} (s : EntityStore T) (tag : Nat) : EntityStore T :=
  let pool := (Pool.new T).reserve_up_to s.max_entity
  ⟨storeInsert s.store tag pool, s.max_entity, s.pool_refs⟩

/-- `EntityStore::reserve_up_to(entityId)`: raise the high-water mark only. -/
def EntityStore.reserve_up_to {T : Type} (s : EntityStore T) (entityId : EntityId) :
    EntityStore T :=
  if s.max_entity ≥ entityId then s else ⟨s.store, entityId, s.pool_refs⟩

/-- `EntityStore::get::<T>()`. -/
def EntityStore.get {T : Type} (s : EntityStore T) (tag : Nat) : Option (Pool T) :=
  storeGet s.store tag

/-- `EntityStore::add_component::<T>(entityId, component)`: forward to the
pool when the tag is registered, silently do nothing otherwise. -/
def EntityStore.add_component {T : Type} (s : EntityStore T) (tag : Nat)
    (entityId : EntityId) (component : T) : Except Unit (EntityStore T) :=
  match storeGet s.store tag with
  | none => .ok s
  | some pool =>
    (pool.add_component entityId component).map fun p =>
      ⟨storeUpdate s.store tag p, s.max_entity, s.pool_refs⟩

/-- `EntityStore::remove_component::<T>(entityId)`: forward to the pool when
the tag is registered, silently do nothing otherwise. -/
def EntityStore.remove_component {T : Type} (s : EntityStore T) (tag : Nat)
    (entityId : EntityId) : Except Unit (EntityStore T) :=
  match storeGet s.store tag with
  | none => .ok s
  | some pool =>
    (pool.remove entityId).map fun p =>
      ⟨storeUpdate s.store tag p, s.max_entity, s.pool_refs⟩

/-- `EntityStore::has_component::<T>(entity_id)`: forward, `false` when the
tag is unregistered. -/
def EntityStore.has_component {T : Type} (s : EntityStore T) (tag : Nat)
    (entity_id : EntityId) : Bool :=
  match storeGet s.store tag with
  | some pool => pool.has_component entity_id
  | none => false

/-- `EntityStore::remove_entity(entity_id)` as written in the source: the
function body is empty (`{}`), so the store is returned unchanged. -/
def EntityStore.remove_entity {T : Type} (s : EntityStore T) (_entity_id : EntityId) :
    EntityStore T :=
  s

/-- C1: `Pool::remove` on a pool holding handles `[1,2,3]` with values
`[10,20,30]` does swap-remove the dense layers correctly, but because Rust's
`Vec::swap_remove` returns the REMOVED element (here `2`), the code re-writes
`sparse[2] = Some(2)` (instead of leaving it cleared) and never updates
`sparse[3]`, which keeps pointing at the stale position `2`; the claim's
required post-state (`sparse[2]` cleared, `sparse[3] = Some(1)`) does not
hold. -/
theorem c1_remove_botches_sparse_fixup :
    (((Pool.new Nat).add_component 1 10).bind (fun p => p.add_component 2 20)).bind
        (fun p => p.add_component 3 30) =
      .ok ⟨[none, some 0, some 1, some 2], [1, 2, 3], [10, 20, 30]⟩
    ∧ (⟨[none, some 0, some 1, some 2], [1, 2, 3], [10, 20, 30]⟩ : Pool Nat).remove 2 =
      .ok ⟨[none, some 0, some 2, some 2], [1, 3], [10, 30]⟩
    ∧ (⟨[none, some 0, some 2, some 2], [1, 3], [10, 30]⟩ : Pool Nat).components =
      [(1, 10), (3, 30)] :=
  ⟨rfl, rfl, rfl⟩

/-- C2: `EntityStore::remove_entity` has an empty body, so after registering
two component types (tags `0` and `1`) and giving handle `5` a component in
each, `remove_entity 5` leaves the store — including both pools' dense
layers — completely unchanged: nothing is broadcast and nothing is removed. -/
theorem c2_remove_entity_is_a_stub :
    ((((EntityStore.new Nat).new_component 0).new_component 1).add_component 0 5 10).bind
        (fun s => s.add_component 1 5 20) =
      .ok ⟨[(0, ⟨[none, none, none, none, none, some 0], [5], [10]⟩),
            (1, ⟨[none, none, none, none, none, some 0], [5], [20]⟩)], 0, []⟩
    ∧ (⟨[(0, ⟨[none, none, none, none, none, some 0], [5], [10]⟩),
         (1, ⟨[none, none, none, none, none, some 0], [5], [20]⟩)], 0, []⟩ :
          EntityStore Nat).remove_entity 5 =
      ⟨[(0, ⟨[none, none, none, none, none, some 0], [5], [10]⟩),
        (1, ⟨[none, none, none, none, none, some 0], [5], [20]⟩)], 0, []⟩
    ∧ ((⟨[(0, ⟨[none, none, none, none, none, some 0], [5], [10]⟩),
          (1, ⟨[none, none, none, none, none, some 0], [5], [20]⟩)], 0, []⟩ :
           EntityStore Nat).get 0).map (fun p => p.get 5) = some (.ok (some 10))
    ∧ ((⟨[(0, ⟨[none, none, none, none, none, some 0], [5], [10]⟩),
          (1, ⟨[none, none, none, none, none, some 0], [5], [20]⟩)], 0, []⟩ :
           EntityStore Nat).get 1).map (fun p => p.get 5) = some (.ok (some 20)) :=
  ⟨rfl, rfl, rfl, rfl⟩

/-- C3: `Pool::has_component` is `entity_indices.get(h).is_none()`, the
inverse of the claim: on a fresh pool handle `0` has no dense entry yet
`has_component 0` is `true`, and right after `add_component 0 42` gives `0`
a dense entry, `has_component 0` is `false`. -/
theorem c3_has_component_inverted :
    (Pool.new Nat).has_component 0 = true
    ∧ ((Pool.new Nat).add_component 0 42).map (fun p => p.has_component 0) = .ok false :=
  ⟨rfl, rfl⟩

/-- C4: the sequence `add_component 0 10; remove 0` from the empty pool ends
in the state `⟨[some 0], [], []⟩`, whose sparse entry `0` points at position
`0` of the now-empty dense layers — invariant 3 (and with it the claimed
conjunction of invariants 1–4) fails on a reachable state. -/
theorem c4_remove_breaks_the_invariants :
    ((Pool.new Nat).add_component 0 10).bind (fun p => p.remove 0) =
      .ok ⟨[some 0], [], []⟩
    ∧ Pool.invariant3 (⟨[some 0], [], []⟩ : Pool Nat) = false
    ∧ Pool.invariants (⟨[some 0], [], []⟩ : Pool Nat) = false :=
  ⟨rfl, rfl, rfl⟩

/-- C5: right after `add_component 0 42` on the empty pool, `get 0` does
return the new value `42`, but `has_component 0` returns `false` rather than
the claimed `true`, because `has_component` tests `is_none` on the sparse
slot. -/
theorem c5_add_component_has_component_false :
    ((Pool.new Nat).add_component 0 42).map (fun p => (p.has_component 0, p.get 0)) =
      .ok (false, .ok (some 42)) :=
  rfl

/-- C6: `EntityStore::new_component` does register a fresh pool reserved up
to the high-water mark `max_entity = 0` (sparse length `1`), but it never
pushes anything onto `pool_refs`: the broadcast list is still empty after
registration, contrary to the claim. -/
theorem c6_new_component_skips_broadcast_list :
    (EntityStore.new Nat).new_component 0 =
      ⟨[(0, ⟨[none], [], []⟩)], 0, []⟩
    ∧ ((EntityStore.new Nat).new_component 0).pool_refs = [] :=
  ⟨rfl, rfl⟩

/-- C7: the state `⟨[some 0], [], []⟩` is reachable (via
`add_component 0 10; remove 0`), handle `0` has no dense entry there, and
both `get 0` and `get_mut 0` hit the raw index `component_list[0]` of the
empty dense layer — a panic (`.error ()`), not the claimed `None`. -/
theorem c7_get_panics_on_stale_sparse_entry :
    ((Pool.new Nat).add_component 0 10).bind (fun p => p.remove 0) =
      .ok ⟨[some 0], [], []⟩
    ∧ (⟨[some 0], [], []⟩ : Pool Nat).get 0 = .error ()
    ∧ (⟨[some 0], [], []⟩ : Pool Nat).get_mut 0 = .error () :=
  ⟨rfl, rfl, rfl⟩

/-- C8: on a store where `tag` is unregistered, both `add_component` and
`remove_component` hit the `None` branch of the `if let` and return the
store unchanged — no panic, the write or removal is silently dropped. -/
theorem c8_unregistered_type_is_noop {T : Type} (s : EntityStore T) (tag : Nat)
    (entityId : EntityId) (component : T) (h : storeGet s.store tag = none) :
    s.add_component tag entityId component = .ok s
    ∧ s.remove_component tag entityId = .ok s := by
  constructor
  · unfold EntityStore.add_component
    rw [h]
  · unfold EntityStore.remove_component
    rw [h]

/-- Witness for C8: the fresh store registers nothing, so tag `0` is
unregistered and both operations leave it untouched. -/
theorem c8_unregistered_type_is_noop_witness :
    storeGet (EntityStore.new Nat).store 0 = none
    ∧ ((EntityStore.new Nat).add_component 0 5 42 = .ok (EntityStore.new Nat)
       ∧ (EntityStore.new Nat).remove_component 0 5 = .ok (EntityStore.new Nat)) :=
  ⟨rfl, c8_unregistered_type_is_noop (EntityStore.new Nat) 0 5 42 rfl⟩

/-- C9: `Pool::remove` on a handle with no dense entry — its sparse slot is
out of range (`none`) or empty (`some none`) — returns the pool completely
unchanged, so in particular both dense layers and the sparse layer are
untouched. -/
theorem c9_remove_absent_is_noop {T : Type} (p : Pool T) (entity_id : EntityId)
    (h : p.entity_indices.get? entity_id = none
         ∨ p.entity_indices.get? entity_id = some none) :
    p.remove entity_id = .ok p := by
  unfold Pool.remove
  rcases h with h | h <;> rw [h]

/-- Witness for C9: removing handle `3` from the empty pool (sparse slot out
of range) is a no-op. -/
theorem c9_remove_absent_is_noop_witness :
    (Pool.new Nat).entity_indices.get? 3 = none
    ∧ (Pool.new Nat).remove 3 = .ok (Pool.new Nat) :=
  ⟨rfl, c9_remove_absent_is_noop (Pool.new Nat) 3 (Or.inl rfl)⟩

/-- `Pool::new_entity` appends one empty sparse slot and returns the old
sparse length as the fresh handle. -/
theorem new_entity_spec {T : Type} (p : Pool T) :
    p.new_entity =
      (⟨p.entity_indices ++ [none], p.entity_list, p.component_list⟩,
       p.entity_indices.length) := by
  simp [Pool.new_entity]

/-- C10: on any pool whose dense handles all lie inside the sparse layer
(invariant 4, true of every reachable pool), the handle returned by
`new_entity` has no component: `get` finds the freshly pushed empty slot and
returns `none`, and the handle occurs nowhere in the dense handle layer. -/
theorem c10_new_entity_handle_is_fresh {T : Type} (p : Pool T)
    (h : p.invariant4 = true) :
    (p.new_entity).1.get (p.new_entity).2 = .ok none
    ∧ (p.new_entity).2 ∉ (p.new_entity).1.entity_list := by
  rw [new_entity_spec]
  constructor
  · unfold Pool.get
    rw [List.get?_append_right (le_refl _)]
    simp
  · intro hmem
    unfold Pool.invariant4 at h
    have h4 := List.all_eq_true.mp h _ hmem
    exact absurd (of_decide_eq_true h4) (lt_irrefl _)

/-- Witness for C10: a one-element pool satisfying invariant 4; its fresh
handle `1` has no component and is absent from the dense handle layer. -/
theorem c10_new_entity_handle_is_fresh_witness :
    Pool.invariant4 (⟨[some 0], [0], [10]⟩ : Pool Nat) = true
    ∧ (((⟨[some 0], [0], [10]⟩ : Pool Nat).new_entity).1.get
          ((⟨[some 0], [0], [10]⟩ : Pool Nat).new_entity).2 = .ok none
       ∧ ((⟨[some 0], [0], [10]⟩ : Pool Nat).new_entity).2 ∉
          ((⟨[some 0], [0], [10]⟩ : Pool Nat).new_entity).1.entity_list) :=
  ⟨rfl, c10_new_entity_handle_is_fresh (⟨[some 0], [0], [10]⟩ : Pool Nat) rfl⟩
